import Mathlib

/-!
Verification of the HttpToMqtt core (shelf/position inventory over MQTT).

Shallow embedding of the repository source:
  - `HttpToMqtt/Types/__init__.py` : the pydantic data model (structures below).
  - `HttpToMqtt/DataManager/__init__.py` : the JSON database operations. The
    Python code mutates aliased pydantic objects in place; the embedding is
    state passing on a `DB` value. An operation that the source ends with
    `self.save_data()` is instrumented with the list of save events it emits
    (`SaveEvent.primary` for `save_data`, `SaveEvent.backup` for
    `save_backup_data`), so persistence claims are statable.
  - `HttpToMqtt/Mqtt/__init__.py` : `publish_with_ack` and the inbound ack
    callbacks. Randomness (`random.randint(0, 255)`) is modelled by an
    explicit candidate stream, and the busy poll loop by a discrete delivery
    schedule: a list of (tick, ack) pairs for acks appended to the selected
    queue while this call is waiting; the loop observes an ack delivered at
    tick t before the `time.time() - timestamp > timeout` check fires iff
    t <= timeout.
  - `HttpToMqtt/Api/__init__.py` : the route handlers that gate every mutation
    behind a device acknowledgment. The single `publish_with_ack` call of a
    handler is abstracted by its resulting status code (`ackStatus`), which
    the source only ever receives as 504 or 200.

Python `int` is embedded as `Int` (it is unbounded and range checked in the
source), MQTT payload bytes and ack ids as `Nat`.
-/

namespace HttpToMqtt

/-- Types.ShelfPosition: a position (unit) of a shelf. -/
structure ShelfPosition where
  ShelfNumber : Int
  PositionId : Int
  LEDs : List Int
deriving DecidableEq, Repr

/-- Types.Shelf: a shelf bound to one ESP32 by MAC address. -/
structure Shelf where
  ShelfNumber : Int
  Mac_Address : String
  Positions : List ShelfPosition
deriving DecidableEq, Repr

/-- Types.ESP32: a registered device with its assignment and liveness flags. -/
structure ESP32 where
  Mac_Address : String
  isUsed : Bool
  isOnline : Bool
deriving DecidableEq, Repr

/-- Types.DB: the whole database. The `ShelfArray` and `ESP32Array` wrappers
of the source hold a single list field each and are collapsed into the lists
themselves. -/
structure DB where
  Shelves : List Shelf
  ESP32s : List ESP32
deriving DecidableEq, Repr

/-- Save events emitted by a DataManager operation: `save_data` writes the
primary JSON file, `save_backup_data` the backup file, each wholesale. -/
inductive SaveEvent where
  | primary
  | backup
deriving DecidableEq, Repr

/-- Result of a DataManager mutating method: the database afterwards, the
boolean the method returns, and the save events it performed in order. -/
structure OpResult where
  db : DB
  ok : Bool
  saves : List SaveEvent
deriving DecidableEq, Repr

/-- DataManager.shelf_exists: the ShelfNumber occurs in the database. -/
def shelf_exists (db : DB) (shelf_number : Int) : Bool :=
  db.Shelves.any (fun s => s.ShelfNumber == shelf_number)

/-- DataManager.shelf_exists_by_mac_address: some Shelf stores this MAC. -/
def shelf_exists_by_mac_address (db : DB) (mac_address : String) : Bool :=
  db.Shelves.any (fun s => s.Mac_Address == mac_address)

/-- DataManager.mac_address_exists: some ESP32 has this MAC. -/
def mac_address_exists (db : DB) (mac_address : String) : Bool :=
  db.ESP32s.any (fun e => e.Mac_Address == mac_address)

/-- DataManager.position_id_exists: some Shelf with the given number stores
the given PositionId. The source loops over every shelf with the number and
returns False only after all loops finish. -/
def position_id_exists (db : DB) (shelf_number position_id : Int) : Bool :=
  if ¬ shelf_exists db shelf_number then false
  else db.Shelves.any (fun s =>
    s.ShelfNumber == shelf_number &&
      s.Positions.any (fun p => p.PositionId == position_id))

/-- DataManager.get_shelf_by_shelf_number: first Shelf with the number. -/
def get_shelf_by_shelf_number (db : DB) (shelf_number : Int) : Option Shelf :=
  if ¬ shelf_exists db shelf_number then none
  else db.Shelves.find? (fun s => s.ShelfNumber == shelf_number)

/-- DataManager.get_shelf_by_mac_address: first Shelf with the MAC. -/
def get_shelf_by_mac_address (db : DB) (mac_address : String) : Option Shelf :=
  if ¬ shelf_exists_by_mac_address db mac_address then none
  else db.Shelves.find? (fun s => s.Mac_Address == mac_address)

/-- DataManager.get_mac_address_by_shelf_number. -/
def get_mac_address_by_shelf_number (db : DB) (shelf_number : Int) : Option String :=
  if ¬ shelf_exists db shelf_number then none
  else (db.Shelves.find? (fun s => s.ShelfNumber == shelf_number)).map
    (fun s => s.Mac_Address)

/-- DataManager.get_positions_by_shelf_number: positions of the first Shelf
with the number. -/
def get_positions_by_shelf_number (db : DB) (shelf_number : Int) :
    Option (List ShelfPosition) :=
  if ¬ shelf_exists db shelf_number then none
  else (db.Shelves.find? (fun s => s.ShelfNumber == shelf_number)).map
    (fun s => s.Positions)

/-- DataManager.get_position_by_shelf_number_and_position_id: first position
with the id inside the first Shelf with the number. -/
def get_position_by_shelf_number_and_position_id (db : DB)
    (shelf_number position_id : Int) : Option ShelfPosition :=
  if ¬ shelf_exists db shelf_number then none
  else match db.Shelves.find? (fun s => s.ShelfNumber == shelf_number) with
    | none => none
    | some shelf => shelf.Positions.find? (fun p => p.PositionId == position_id)

/-- DataManager.get_leds_by_shelf_number_and_position_id. -/
def get_leds_by_shelf_number_and_position_id (db : DB)
    (shelf_number position_id : Int) : Option (List Int) :=
  if ¬ shelf_exists db shelf_number then none
  else if ¬ position_id_exists db shelf_number position_id then none
  else (get_position_by_shelf_number_and_position_id db shelf_number
    position_id).map (fun p => p.LEDs)

/-- DataManager.get_esp32_by_mac_address: first ESP32 with the MAC. -/
def get_esp32_by_mac_address (db : DB) (mac_address : String) : Option ESP32 :=
  if ¬ mac_address_exists db mac_address then none
  else db.ESP32s.find? (fun e => e.Mac_Address == mac_address)

/-- DataManager.leds_exists: one of the given LEDs already occurs in some
position of the Shelf with the given number. -/
def leds_exists (db : DB) (leds : List Int) (shelf_number : Int) : Bool :=
  if ¬ shelf_exists db shelf_number then false
  else match get_positions_by_shelf_number db shelf_number with
    | none => false
    | some positions =>
      if positions.isEmpty then false
      else positions.any (fun p => leds.any (fun led => p.LEDs.contains led))

/-- DataManager.leds_exists_exclusive: one of the LEDs of the given position
already occurs in another position (different PositionId) of the Shelf with
the ShelfNumber of the given position. -/
def leds_exists_exclusive (db : DB) (shelf_position : ShelfPosition) : Bool :=
  if ¬ shelf_exists db shelf_position.ShelfNumber then false
  else if ¬ position_id_exists db shelf_position.ShelfNumber
      shelf_position.PositionId then false
  else match get_positions_by_shelf_number db shelf_position.ShelfNumber with
    | none => false
    | some positions =>
      if positions.isEmpty then false
      else positions.any (fun p =>
        p.PositionId != shelf_position.PositionId &&
          shelf_position.LEDs.any (fun led => p.LEDs.contains led))

/-- In-place mutation of the first ESP32 with the given MAC, the object that
`get_esp32_by_mac_address` aliases in the source. -/
def updateFirstESP32 (mac_address : String) (f : ESP32 → ESP32) :
    List ESP32 → List ESP32
  | [] => []
  | e :: es =>
    if e.Mac_Address == mac_address then f e :: es
    else e :: updateFirstESP32 mac_address f es

/-- In-place mutation of the first Shelf with the given number, the object
that `get_shelf_by_shelf_number` aliases in the source. -/
def updateFirstShelf (shelf_number : Int) (f : Shelf → Shelf) :
    List Shelf → List Shelf
  | [] => []
  | s :: ss =>
    if s.ShelfNumber == shelf_number then f s :: ss
    else s :: updateFirstShelf shelf_number f ss

/-- In-place mutation of the first position with the given id, the object
that `get_position_by_shelf_number_and_position_id` aliases in the source. -/
def updateFirstPosition (position_id : Int) (f : ShelfPosition → ShelfPosition) :
    List ShelfPosition → List ShelfPosition
  | [] => []
  | p :: ps =>
    if p.PositionId == position_id then f p :: ps
    else p :: updateFirstPosition position_id f ps

/-- Python list.remove: drop the first structurally equal element. -/
def removeFirstEq (a : ShelfPosition) : List ShelfPosition → List ShelfPosition
  | [] => []
  | p :: ps => if p == a then ps else p :: removeFirstEq a ps

/-- Removal of the first Shelf with the given number. The source calls
`list.remove(shelf)` where `shelf` is the first element with that number;
every earlier element has a different number, so it is never structurally
equal to `shelf` and exactly the first shelf with the number is dropped. -/
def removeFirstShelf (shelf_number : Int) : List Shelf → List Shelf
  | [] => []
  | s :: ss =>
    if s.ShelfNumber == shelf_number then ss
    else s :: removeFirstShelf shelf_number ss

/-- DataManager.add_shelf. The `mac_address_exists` test of the source only
logs and does not return; the None test on `get_esp32_by_mac_address` is the
check that matters. On success the aliased ESP32 gets `isUsed = True`, the
shelf is appended and `save_data` runs. -/
def add_shelf (db : DB) (shelf : Shelf) : OpResult :=
  if shelf_exists db shelf.ShelfNumber then ⟨db, false, []⟩
  else match get_esp32_by_mac_address db shelf.Mac_Address with
    | none => ⟨db, false, []⟩
    | some esp32 =>
      if esp32.isUsed then ⟨db, false, []⟩
      else
        let esp32s := updateFirstESP32 shelf.Mac_Address
          (fun e => { e with isUsed := true }) db.ESP32s
        ⟨{ Shelves := db.Shelves ++ [shelf], ESP32s := esp32s },
         true, [SaveEvent.primary]⟩

/-- DataManager.delete_shelf_by_shelf_number. The `list.remove` cannot fail:
the removed object is the one `get_shelf_by_shelf_number` returned. On
success the aliased ESP32 gets `isUsed = False` and `save_data` runs. -/
def delete_shelf_by_shelf_number (db : DB) (shelf_number : Int) : OpResult :=
  match get_shelf_by_shelf_number db shelf_number with
  | none => ⟨db, false, []⟩
  | some _shelf =>
    match get_mac_address_by_shelf_number db shelf_number with
    | none => ⟨db, false, []⟩
    | some mac_address =>
      match get_esp32_by_mac_address db mac_address with
      | none => ⟨db, false, []⟩
      | some _esp32 =>
        let esp32s := updateFirstESP32 mac_address
          (fun e => { e with isUsed := false }) db.ESP32s
        ⟨{ Shelves := removeFirstShelf shelf_number db.Shelves, ESP32s := esp32s },
         true, [SaveEvent.primary]⟩

/-- DataManager.add_position. The `shelf` argument of the source is the
aliased database object (every call site obtains it from
`get_shelf_by_shelf_number` or `get_shelf_by_mac_address`); it is embedded by
its shelf number. Note that the `leds_exists` validation runs against
`shelf_position.ShelfNumber` while every other check and the final append use
the number of the `shelf` argument. -/
def add_position (db : DB) (shelf_number : Int) (shelf_position : ShelfPosition) :
    OpResult :=
  if ¬ shelf_exists db shelf_number then ⟨db, false, []⟩
  else if position_id_exists db shelf_number shelf_position.PositionId then
    ⟨db, false, []⟩
  else if shelf_position.PositionId > 255 || shelf_position.PositionId < 0 then
    ⟨db, false, []⟩
  else if shelf_position.LEDs.isEmpty then ⟨db, false, []⟩
  else if leds_exists db shelf_position.LEDs shelf_position.ShelfNumber then
    ⟨db, false, []⟩
  else
    let sp := { shelf_position with ShelfNumber := shelf_number }
    let shelves := updateFirstShelf shelf_number
      (fun s => { s with Positions := s.Positions ++ [sp] }) db.Shelves
    ⟨{ db with Shelves := shelves }, true, [SaveEvent.primary]⟩

/-- DataManager.update_position. Validation uses `leds_exists_exclusive`,
which compares against every position of the shelf except those sharing the
PositionId being replaced; the aliased position then receives the new
ShelfNumber and LEDs and `save_data` runs. -/
def update_position (db : DB) (shelf_number : Int) (shelf_position : ShelfPosition) :
    OpResult :=
  if ¬ shelf_exists db shelf_number then ⟨db, false, []⟩
  else if ¬ position_id_exists db shelf_number shelf_position.PositionId then
    ⟨db, false, []⟩
  else if shelf_position.LEDs.isEmpty then ⟨db, false, []⟩
  else if leds_exists_exclusive db shelf_position then ⟨db, false, []⟩
  else
    let updPos := fun (p : ShelfPosition) =>
      { p with ShelfNumber := shelf_number, LEDs := shelf_position.LEDs }
    let updShelf := fun (s : Shelf) =>
      { s with Positions :=
          updateFirstPosition shelf_position.PositionId updPos s.Positions }
    let shelves := updateFirstShelf shelf_number updShelf db.Shelves
    ⟨{ db with Shelves := shelves }, true, [SaveEvent.primary]⟩

/-- DataManager.delete_position. `list.remove(shelf_position)` raises
ValueError when no structurally equal position is stored, in which case the
method returns False without saving. -/
def delete_position (db : DB) (shelf_number : Int) (shelf_position : ShelfPosition) :
    OpResult :=
  if ¬ shelf_exists db shelf_number then ⟨db, false, []⟩
  else if ¬ position_id_exists db shelf_number shelf_position.PositionId then
    ⟨db, false, []⟩
  else match get_positions_by_shelf_number db shelf_number with
    | none => ⟨db, false, []⟩
    | some positions =>
      if ¬ positions.contains shelf_position then ⟨db, false, []⟩
      else
        let shelves := updateFirstShelf shelf_number
          (fun s => { s with Positions := removeFirstEq shelf_position s.Positions })
          db.Shelves
        ⟨{ db with Shelves := shelves }, true, [SaveEvent.primary]⟩

/-- DataManager.add_esp32. -/
def add_esp32 (db : DB) (esp32 : ESP32) : OpResult :=
  if mac_address_exists db esp32.Mac_Address then ⟨db, false, []⟩
  else ⟨{ db with ESP32s := db.ESP32s ++ [esp32] }, true, [SaveEvent.primary]⟩

/-- DataManager.set_all_esp32s_offline: clears every isOnline flag, saving
nothing itself (the constructor saves afterwards). -/
def set_all_esp32s_offline (db : DB) : OpResult :=
  ⟨{ db with ESP32s := db.ESP32s.map (fun e => { e with isOnline := false }) },
   true, []⟩

/-- Types.ACK: an acknowledgment identified by the MAC of the sending ESP32
and a single byte id; pydantic equality compares both fields. -/
structure ACK where
  Mac_Address : String
  ACK_id : Nat
deriving DecidableEq, Repr

/-- The two ack queues of the Mqtt object. -/
structure MqttState where
  light_ack_queue : List ACK
  config_ack_queue : List ACK
deriving DecidableEq, Repr

/-- Outcome of one `publish_with_ack` call: `exc` is the raised exception
message if any, `status` the returned code, `published` the messages handed
to `client.publish` as (topic, bytes) in order, and `state` the queues when
the call ends. -/
structure PubResult where
  exc : Option String
  status : Option Nat
  published : List (String × List Nat)
  state : MqttState
deriving DecidableEq, Repr

/-- The id redraw loop of Mqtt.publish_with_ack: `random.randint(0, 255)` is
modelled by the candidate stream `cands`; the loop keeps drawing while the
ACK built from the draw is already an element of the selected queue, so the
chosen id is the first candidate whose (MAC, id) pair is not in the queue at
this instant. `none` models exhaustion of the finite candidate list (the
source would keep drawing). -/
def selectAckId (mac_address : String) (queue : List ACK) (cands : List Nat) :
    Option Nat :=
  cands.find? (fun c => ¬ queue.contains ⟨mac_address, c⟩)

/-- Acks appended to the selected queue by the inbound callback up to and
including tick `t` of the waiting loop. -/
def arrivalsBy (t : Nat) (deliveries : List (Nat × ACK)) : List ACK :=
  (deliveries.filter (fun d => d.1 ≤ t)).map (fun d => d.2)

/-- Python list.remove on an ack queue: drop the first equal element. -/
def removeFirstAck (a : ACK) : List ACK → List ACK
  | [] => []
  | x :: xs => if x == a then xs else x :: removeFirstAck a xs

/-- Mqtt.publish_with_ack. Control flow of the source:
1. pick the queue for `select_queue`, raising for any other value before
   anything is published;
2. draw the correlation id, redrawing while it collides with an ack already
   in the queue;
3. publish one message to `topic`: the id byte followed by the payload;
4. busy poll the queue, returning 504 at the first check that sees
   `time.time() - timestamp > timeout` and 200 as soon as the matching ack
   is in the queue, removing it then.
The poll is discretized: `deliveries` lists the (tick, ack) appends done by
the ack callbacks during this wait; an ack delivered at tick `t` is observed
by the membership test before the timeout comparison fires iff `t ≤ timeout`. -/
def publish_with_ack (timeout : Nat) (mac_address : String)
    (select_queue : String) (topic : String) (payload : List Nat)
    (st : MqttState) (cands : List Nat) (deliveries : List (Nat × ACK)) :
    PubResult :=
  let queue? : Option (List ACK) :=
    if select_queue = "light_ack" then some st.light_ack_queue
    else if select_queue = "config_ack" then some st.config_ack_queue
    else none
  match queue? with
  | none =>
    ⟨some "Didnt choose the right queue: either light_ack or config_ack",
     none, [], st⟩
  | some queue =>
    match selectAckId mac_address queue cands with
    | none => ⟨some "model: random candidate stream exhausted", none, [], st⟩
    | some ack_id =>
      let outgoing : ACK := ⟨mac_address, ack_id⟩
      let published := [(topic, ack_id :: payload)]
      let matchTimes :=
        (deliveries.filter (fun d => d.2 == outgoing)).map (fun d => d.1)
      let success := matchTimes.any (fun t => t ≤ timeout)
      let finalQueue :=
        if success then
          let tMatch := ((matchTimes.filter (fun t => t ≤ timeout)).min?).getD 0
          removeFirstAck outgoing (queue ++ arrivalsBy tMatch deliveries)
        else queue ++ arrivalsBy timeout deliveries
      let st' :=
        if select_queue = "light_ack" then
          { st with light_ack_queue := finalQueue }
        else { st with config_ack_queue := finalQueue }
      ⟨none, some (if success then 200 else 504), published, st'⟩

/-- Mqtt receive_register callback: set the aliased ESP32 online and save, or
register a fresh ESP32 with isUsed=False, isOnline=True via add_esp32. -/
def receive_register (db : DB) (mac_address : String) : OpResult :=
  if mac_address_exists db mac_address then
    let esp32s := updateFirstESP32 mac_address
      (fun e => { e with isOnline := true }) db.ESP32s
    ⟨{ db with ESP32s := esp32s }, true, [SaveEvent.primary]⟩
  else add_esp32 db ⟨mac_address, false, true⟩

/-- Mqtt config_offline callback: clear the aliased isOnline flag and save;
no-op for an unknown MAC. -/
def config_offline (db : DB) (mac_address : String) : OpResult :=
  if mac_address_exists db mac_address then
    let esp32s := updateFirstESP32 mac_address
      (fun e => { e with isOnline := false }) db.ESP32s
    ⟨{ db with ESP32s := esp32s }, true, [SaveEvent.primary]⟩
  else ⟨db, true, []⟩

/-- Mqtt config_put callback: one inbound dump message. The first payload
byte is the position id, the rest the LEDs; an empty LED list is rejected,
otherwise the position is added to the shelf aliased by the MAC with the
create semantics of add_position. An empty payload would raise IndexError on
`msg.payload[0]` before any state is read or written. -/
def config_put (db : DB) (mac_address : String) (payload : List Nat) : OpResult :=
  match get_shelf_by_mac_address db mac_address with
  | none => ⟨db, false, []⟩
  | some shelf =>
    match payload with
    | [] => ⟨db, false, []⟩
    | position_id :: rest =>
      if rest.isEmpty then ⟨db, false, []⟩
      else
        let sp : ShelfPosition :=
          ⟨shelf.ShelfNumber, (position_id : Int), rest.map (fun b => (b : Int))⟩
        add_position db shelf.ShelfNumber sp

/-- The character class `[0-9a-fA-F]` of the color regex. -/
def isHexDigitChar (c : Char) : Bool :=
  (('0' ≤ c && c ≤ '9') || ('a' ≤ c && c ≤ 'f')) || ('A' ≤ c && c ≤ 'F')

/-- Value of one hex digit (class already checked by the regex). -/
def hexDigitVal (c : Char) : Nat :=
  if '0' ≤ c && c ≤ '9' then c.toNat - '0'.toNat
  else if 'a' ≤ c && c ≤ 'f' then c.toNat - 'a'.toNat + 10
  else if 'A' ≤ c && c ≤ 'F' then c.toNat - 'A'.toNat + 10
  else 0

/-- Api.color_string_to_byte_array. `re.match("#[0-9a-fA-F]{6}", s)` anchors
only at the start of the string, so it succeeds whenever the FIRST seven
characters are `#` followed by six hex digits, whatever follows them; the
source then converts `res.string[0:7]`, i.e. exactly those first seven
characters, and the guarded `bytearray.fromhex` cannot fail on six hex
digits. Any string whose first seven characters do not have that shape gives
None. -/
def color_string_to_byte_array (color_as_string : String) : Option (List Nat) :=
  match color_as_string.data with
  | c0 :: c1 :: c2 :: c3 :: c4 :: c5 :: c6 :: _ =>
    if c0 = '#' ∧ ([c1, c2, c3, c4, c5, c6].all isHexDigitChar) then
      some [16 * hexDigitVal c1 + hexDigitVal c2,
            16 * hexDigitVal c3 + hexDigitVal c4,
            16 * hexDigitVal c5 + hexDigitVal c6]
    else none
  | _ => none

/-- Outcome of one Api route handler: HTTP status code, database afterwards,
save events performed, and whether the handler reached its
`publish_with_ack` call (the device exchange). -/
structure ApiResult where
  status : Nat
  db : DB
  saves : List SaveEvent
  published : Bool
deriving DecidableEq, Repr

/-- Api create_position handler (PUT /light/createPosition). Validation runs
against the persisted state; the device exchange is abstracted by its status
`ackStatus` (504 timeout or 200 ack in the source). On 200 the position is
committed with add_position on the shelf aliased by the ShelfNumber. The
duplicated `get_shelf_by_shelf_number` + `__validate_shelf` block of the
source is idempotent and embedded once; the shelf is not None whenever its
MAC was found. -/
def api_create_position (db : DB) (shelf_position : ShelfPosition)
    (ackStatus : Nat) : ApiResult :=
  match get_mac_address_by_shelf_number db shelf_position.ShelfNumber with
  | none => ⟨404, db, [], false⟩
  | some _mac =>
    if position_id_exists db shelf_position.ShelfNumber
        shelf_position.PositionId then ⟨406, db, [], false⟩
    else if shelf_position.PositionId > 255 || shelf_position.PositionId < 0 then
      ⟨400, db, [], false⟩
    else if leds_exists db shelf_position.LEDs shelf_position.ShelfNumber then
      ⟨406, db, [], false⟩
    else if ackStatus == 504 then ⟨504, db, [], true⟩
    else if ackStatus == 200 then
      let r := add_position db shelf_position.ShelfNumber shelf_position
      if r.ok then ⟨200, r.db, r.saves, true⟩
      else ⟨406, r.db, r.saves, true⟩
    else ⟨500, db, [], true⟩

/-- Api update_position handler (PUT /light/updatePosition). -/
def api_update_position (db : DB) (shelf_position : ShelfPosition)
    (ackStatus : Nat) : ApiResult :=
  match get_mac_address_by_shelf_number db shelf_position.ShelfNumber with
  | none => ⟨404, db, [], false⟩
  | some _mac =>
    if ¬ position_id_exists db shelf_position.ShelfNumber
        shelf_position.PositionId then ⟨406, db, [], false⟩
    else if shelf_position.PositionId > 255 || shelf_position.PositionId < 0 then
      ⟨400, db, [], false⟩
    else if leds_exists_exclusive db shelf_position then ⟨406, db, [], false⟩
    else if ackStatus == 504 then ⟨504, db, [], true⟩
    else if ackStatus == 200 then
      let r := update_position db shelf_position.ShelfNumber shelf_position
      if r.ok then ⟨200, r.db, r.saves, true⟩
      else ⟨406, r.db, r.saves, true⟩
    else ⟨500, db, [], true⟩

/-- Api delete_position handler (DELETE /light/deletePosition). The position
object passed to DataManager.delete_position is the aliased database object
found by shelf number and position id. -/
def api_delete_position (db : DB) (shelf_number position_id : Int)
    (ackStatus : Nat) : ApiResult :=
  match get_mac_address_by_shelf_number db shelf_number with
  | none => ⟨404, db, [], false⟩
  | some _mac =>
    if ¬ position_id_exists db shelf_number position_id then ⟨406, db, [], false⟩
    else if position_id > 255 || position_id < 0 then ⟨400, db, [], false⟩
    else match get_position_by_shelf_number_and_position_id db shelf_number
        position_id with
      | none => ⟨404, db, [], false⟩
      | some p =>
        if ackStatus == 504 then ⟨504, db, [], true⟩
        else if ackStatus == 200 then
          let r := delete_position db shelf_number p
          if r.ok then ⟨200, r.db, r.saves, true⟩
          else ⟨406, r.db, r.saves, true⟩
        else ⟨500, db, [], true⟩

/-- Api delete_shelf handler (DELETE /light/deleteShelf). -/
def api_delete_shelf (db : DB) (shelf_number : Int) (ackStatus : Nat) :
    ApiResult :=
  match get_shelf_by_shelf_number db shelf_number with
  | none => ⟨404, db, [], false⟩
  | some shelf =>
    if ackStatus == 504 then ⟨504, db, [], true⟩
    else if ackStatus == 200 then
      let r := delete_shelf_by_shelf_number db shelf.ShelfNumber
      if r.ok then ⟨200, r.db, r.saves, true⟩
      else ⟨406, r.db, r.saves, true⟩
    else ⟨500, db, [], true⟩

/-- Api create_shelf handler (PUT /light/createShelf). -/
def api_create_shelf (db : DB) (shelf : Shelf) : ApiResult :=
  if shelf_exists db shelf.ShelfNumber then ⟨406, db, [], false⟩
  else if ¬ mac_address_exists db shelf.Mac_Address then ⟨404, db, [], false⟩
  else match get_esp32_by_mac_address db shelf.Mac_Address with
    | none => ⟨404, db, [], false⟩
    | some esp32 =>
      if esp32.isUsed then ⟨406, db, [], false⟩
      else
        let r := add_shelf db shelf
        if r.ok then ⟨200, r.db, r.saves, false⟩
        else ⟨500, r.db, r.saves, false⟩

/-- Setting the isUsed flag of the aliased ESP32 directly, as the
get_esp32_config route does with `esp32.isUsed = False` and
`esp32.isUsed = True` (Api lines 679-700). -/
def setUsedDirect (db : DB) (mac_address : String) (b : Bool) : DB :=
  { db with ESP32s :=
      updateFirstESP32 mac_address (fun e => { e with isUsed := b }) db.ESP32s }

/-- Api get_esp32_config handler (GET /light/getESP32). Control flow of the
source, lines 632-711:
  - unknown MAC: 404, nothing touched;
  - the shelf with `shelf_number` exists and is bound to this MAC: delete it,
    recreate it empty via add_shelf, publish config/get (status is the ack
    outcome); if add_shelf fails, 400; if the delete fails the source falls
    through to the next branch;
  - otherwise, if no shelf with `shelf_number` exists: clear the aliased
    isUsed flag directly when set, call add_shelf for a fresh empty shelf
    bound to this MAC, publish config/get on success; when add_shelf fails
    re-set the flag directly (reading the current, aliased value) and 400;
  - otherwise 400 (the shelf number belongs to a different MAC).
The `esp32` alias read in the restore step reflects the database state after
add_shelf, exactly like the aliased pydantic object in the source. -/
def api_get_esp32_config (db : DB) (mac_address : String) (shelf_number : Int)
    (ackStatus : Nat) : ApiResult :=
  if ¬ mac_address_exists db mac_address then ⟨404, db, [], false⟩
  else
    let branch2 : DB → List SaveEvent → ApiResult := fun db0 saves0 =>
      if ¬ shelf_exists db0 shelf_number then
        match get_esp32_by_mac_address db0 mac_address with
        | none => ⟨404, db0, saves0, false⟩
        | some esp32 =>
          let db1 := if esp32.isUsed then setUsedDirect db0 mac_address false
            else db0
          let r := add_shelf db1 ⟨shelf_number, mac_address, []⟩
          if r.ok then
            if ackStatus == 504 then ⟨504, r.db, saves0 ++ r.saves, true⟩
            else if ackStatus == 200 then ⟨200, r.db, saves0 ++ r.saves, true⟩
            else
              match get_esp32_by_mac_address r.db mac_address with
              | none => ⟨400, r.db, saves0 ++ r.saves, true⟩
              | some esp32Now =>
                let db2 := if ¬ esp32Now.isUsed then
                    setUsedDirect r.db mac_address true
                  else r.db
                ⟨400, db2, saves0 ++ r.saves, true⟩
          else
            match get_esp32_by_mac_address r.db mac_address with
            | none => ⟨400, r.db, saves0 ++ r.saves, false⟩
            | some esp32Now =>
              let db2 := if ¬ esp32Now.isUsed then
                  setUsedDirect r.db mac_address true
                else r.db
              ⟨400, db2, saves0 ++ r.saves, false⟩
      else ⟨400, db0, saves0, false⟩
    if get_mac_address_by_shelf_number db shelf_number == some mac_address then
      let rDel := delete_shelf_by_shelf_number db shelf_number
      if rDel.ok then
        let rAdd := add_shelf rDel.db ⟨shelf_number, mac_address, []⟩
        if rAdd.ok then
          if ackStatus == 504 then
            ⟨504, rAdd.db, rDel.saves ++ rAdd.saves, true⟩
          else if ackStatus == 200 then
            ⟨200, rAdd.db, rDel.saves ++ rAdd.saves, true⟩
          else ⟨400, rAdd.db, rDel.saves ++ rAdd.saves, true⟩
        else ⟨400, rAdd.db, rDel.saves ++ rAdd.saves, false⟩
      else branch2 rDel.db rDel.saves
    else branch2 db []

/-- The Slots referencing a device: every Shelf whose Mac_Address is the
MAC of that ESP32. -/
def shelvesReferencing (db : DB) (mac_address : String) : List Shelf :=
  db.Shelves.filter (fun s => s.Mac_Address == mac_address)

/-- The LED sets of two positions are disjoint. -/
def disjointPos (p q : ShelfPosition) : Bool :=
  p.LEDs.all (fun l => ¬ q.LEDs.contains l)

/-- Pairwise disjoint LED sets along a position list. -/
def pairwiseDisjoint : List ShelfPosition → Bool
  | [] => true
  | p :: ps => ps.all (fun q => disjointPos p q) && pairwiseDisjoint ps

/-- C2 invariant: within every Shelf the LED sets of distinct positions are
pairwise disjoint. -/
def shelfLedsDisjoint (db : DB) : Bool :=
  db.Shelves.all (fun s => pairwiseDisjoint s.Positions)

/-- Pairwise distinct PositionIds along a position list. -/
def uniquePids : List ShelfPosition → Bool
  | [] => true
  | p :: ps => ps.all (fun q => q.PositionId != p.PositionId) && uniquePids ps

/-- Companion invariant: within every Shelf the PositionIds are distinct. -/
def dbUniquePids (db : DB) : Bool :=
  db.Shelves.all (fun s => uniquePids s.Positions)

/-- The isUsed assignment flags of all registered devices, in order. -/
def usedFlags (db : DB) : List (String × Bool) :=
  db.ESP32s.map (fun e => (e.Mac_Address, e.isUsed))

/-- State of one ack class of the correlation engine as the claims view it:
the received-ack queue (`light_ack_queue` or `config_ack_queue` in the
source) together with the list of currently outstanding exchanges. An
exchange is outstanding from the instant its `publish_with_ack` call
publishes until that call returns; the source stores no record of it, the
component exists only in the model so that simultaneity is statable. -/
structure CorrState where
  queue : List ACK
  outstanding : List ACK
deriving DecidableEq, Repr

/-- Interleaved behaviour of one ack class under concurrent
`publish_with_ack` callers and the single inbound callback:
  - `start`: a caller draws its correlation id against the queue contents at
    this instant (the redraw loop of the source) and publishes, becoming
    outstanding;
  - `deliver`: the inbound ack callback appends an ack to the queue;
  - `succeed`: a waiting caller observes its ack in the queue, removes it
    and returns 200;
  - `timeout`: a waiting caller gives up and returns 504, leaving no trace. -/
inductive CorrStep : CorrState → CorrState → Prop
  | start (s : CorrState) (mac_address : String) (cands : List Nat)
      (ack_id : Nat)
      (h : selectAckId mac_address s.queue cands = some ack_id) :
      CorrStep s ⟨s.queue, s.outstanding ++ [⟨mac_address, ack_id⟩]⟩
  | deliver (s : CorrState) (a : ACK) :
      CorrStep s ⟨s.queue ++ [a], s.outstanding⟩
  | succeed (s : CorrState) (a : ACK) (ho : a ∈ s.outstanding)
      (hq : a ∈ s.queue) :
      CorrStep s ⟨removeFirstAck a s.queue, removeFirstAck a s.outstanding⟩
  | timeout (s : CorrState) (a : ACK) (ho : a ∈ s.outstanding) :
      CorrStep s ⟨s.queue, removeFirstAck a s.outstanding⟩

/-- States reachable from the empty ack class. -/
def CorrReachable (s : CorrState) : Prop :=
  Relation.ReflTransGen CorrStep ⟨[], []⟩ s

/-- The color contract as the source actually implements it, written from
the amended reading: the first seven characters (when present) must be `#`
followed by six hex digits, and only they are decoded; anything may follow. -/
def colorSpecParse (s : String) : Option (List Nat) :=
  match s.data.take 7 with
  | [c0, c1, c2, c3, c4, c5, c6] =>
    if c0 = '#' ∧ ([c1, c2, c3, c4, c5, c6].all isHexDigitChar) then
      some [16 * hexDigitVal c1 + hexDigitVal c2,
            16 * hexDigitVal c3 + hexDigitVal c4,
            16 * hexDigitVal c5 + hexDigitVal c6]
    else none
  | _ => none

/-- Database used by several concrete witnesses: device registered and bound
to shelf 1, as reached by a register message followed by a createShelf. -/
def dbShelfOne : DB :=
  ⟨[⟨1, "AA:BB:CC:DD:EE:01", []⟩], [⟨"AA:BB:CC:DD:EE:01", true, true⟩]⟩

/-! ## Helper lemmas -/

theorem selectAckId_mem {mac_address : String} {queue : List ACK}
    {cands : List Nat} {ack_id : Nat}
    (h : selectAckId mac_address queue cands = some ack_id) : ack_id ∈ cands :=
  List.mem_of_find?_eq_some h

theorem selectAckId_fresh {mac_address : String} {queue : List ACK}
    {cands : List Nat} {ack_id : Nat}
    (h : selectAckId mac_address queue cands = some ack_id) :
    ¬ queue.contains (ACK.mk mac_address ack_id) := by
  have hp := List.find?_some h
  simpa using hp

theorem shelf_exists_of_find? {db : DB} {n : Int} {s : Shelf}
    (h : db.Shelves.find? (fun x => x.ShelfNumber == n) = some s) :
    shelf_exists db n = true := by
  have hmem := List.mem_of_find?_eq_some h
  have hpred := List.find?_some h
  unfold shelf_exists
  rw [List.any_eq_true]
  exact ⟨s, hmem, hpred⟩

theorem find?_of_shelf_exists {db : DB} {n : Int}
    (h : shelf_exists db n = true) :
    ∃ s, db.Shelves.find? (fun x => x.ShelfNumber == n) = some s := by
  unfold shelf_exists at h
  rw [List.any_eq_true] at h
  obtain ⟨s, hs, hp⟩ := h
  cases hf : db.Shelves.find? (fun x => x.ShelfNumber == n) with
  | none => exact absurd hp (List.find?_eq_none.mp hf s hs)
  | some t => exact ⟨t, rfl⟩

/-- A position list with an appended element stays pairwise disjoint when
the new element is disjoint from every old one. -/
theorem pairwiseDisjoint_append {ps : List ShelfPosition} {a : ShelfPosition}
    (h : pairwiseDisjoint ps = true)
    (ha : ∀ p ∈ ps, disjointPos p a = true) :
    pairwiseDisjoint (ps ++ [a]) = true := by
  induction ps with
  | nil => simp [pairwiseDisjoint]
  | cons p t ih =>
    simp only [pairwiseDisjoint, Bool.and_eq_true, List.all_eq_true] at h
    obtain ⟨h1, h2⟩ := h
    simp only [List.cons_append, pairwiseDisjoint, Bool.and_eq_true,
      List.all_eq_true]
    refine ⟨?_, ih h2 (fun q hq => ha q (List.mem_cons_of_mem _ hq))⟩
    intro q hq
    rcases List.mem_append.mp hq with hq | hq
    · exact h1 q hq
    · simp only [List.mem_singleton] at hq
      subst hq
      exact ha p (List.mem_cons_self p t)

/-- A position list with an appended element keeps distinct PositionIds when
the new id differs from every old one. -/
theorem uniquePids_append {ps : List ShelfPosition} {a : ShelfPosition}
    (h : uniquePids ps = true)
    (ha : ∀ p ∈ ps, a.PositionId ≠ p.PositionId) :
    uniquePids (ps ++ [a]) = true := by
  induction ps with
  | nil => simp [uniquePids]
  | cons p t ih =>
    simp only [uniquePids, Bool.and_eq_true, List.all_eq_true] at h
    obtain ⟨h1, h2⟩ := h
    simp only [List.cons_append, uniquePids, Bool.and_eq_true, List.all_eq_true]
    refine ⟨?_, ih h2 (fun q hq => ha q (List.mem_cons_of_mem _ hq))⟩
    intro q hq
    rcases List.mem_append.mp hq with hq | hq
    · exact h1 q hq
    · simp only [List.mem_singleton] at hq
      subst hq
      simpa using ha p (List.mem_cons_self p t)

theorem disjointPos_spec {p q : ShelfPosition} :
    disjointPos p q = true ↔ ∀ l ∈ p.LEDs, l ∉ q.LEDs := by
  simp [disjointPos]

/-- Disjointness from the other side: nothing of the new LED list occurs in
`p`, hence `p` is LED-disjoint from any position carrying that list. -/
theorem disjointPos_of_not_mem {p a : ShelfPosition}
    (h : ∀ led ∈ a.LEDs, led ∉ p.LEDs) : disjointPos p a = true := by
  rw [disjointPos_spec]
  intro l hl hla
  exact h l hla hl

/-- Updating an element through `updateFirstShelf` keeps an `all` predicate
when the update of the aliased element (the first one with the number)
satisfies it. -/
theorem all_updateFirstShelf {P : Shelf → Bool} {n : Int} {f : Shelf → Shelf}
    {l : List Shelf} (h : l.all P = true)
    (hf : ∀ s, l.find? (fun x => x.ShelfNumber == n) = some s →
      P (f s) = true) :
    (updateFirstShelf n f l).all P = true := by
  induction l with
  | nil => simp [updateFirstShelf]
  | cons s t ih =>
    simp only [List.all_cons, Bool.and_eq_true] at h
    unfold updateFirstShelf
    split
    · rename_i hmatch
      have hfind : (s :: t).find? (fun x => x.ShelfNumber == n) = some s :=
        List.find?_cons_of_pos _ hmatch
      simp only [List.all_cons, Bool.and_eq_true]
      exact ⟨hf s hfind, h.2⟩
    · rename_i hmatch
      have hstep : ∀ x, t.find? (fun y => y.ShelfNumber == n) = some x →
          P (f x) = true := by
        intro x hx
        apply hf
        rw [List.find?_cons_of_neg _ (by simpa using hmatch)]
        exact hx
      simp only [List.all_cons, Bool.and_eq_true]
      exact ⟨h.1, ih h.2 hstep⟩

/-- A failed position_id_exists check means no shelf with the number stores
the id. -/
theorem position_id_exists_false {db : DB} {n pid : Int}
    (h : position_id_exists db n pid = false) :
    ∀ s ∈ db.Shelves, s.ShelfNumber = n →
      ∀ p ∈ s.Positions, p.PositionId ≠ pid := by
  intro s hs hn p hp hpid
  unfold position_id_exists at h
  by_cases hex : shelf_exists db n = true
  · rw [hex] at h
    simp only [not_true, if_false] at h
    rw [Bool.eq_false_iff] at h
    apply h
    rw [List.any_eq_true]
    refine ⟨s, hs, ?_⟩
    simp only [Bool.and_eq_true, beq_iff_eq, List.any_eq_true]
    exact ⟨hn, p, hp, by simp [hpid]⟩
  · apply hex
    unfold shelf_exists
    rw [List.any_eq_true]
    exact ⟨s, hs, by simp [hn]⟩

/-- A failed leds_exists check against shelf `n` means no LED of the probe
list occurs in any position of the first shelf with number `n`. -/
theorem leds_exists_false_spec {db : DB} {L : List Int} {n : Int} {s : Shelf}
    (hfind : db.Shelves.find? (fun x => x.ShelfNumber == n) = some s)
    (h : leds_exists db L n = false) :
    ∀ p ∈ s.Positions, ∀ led ∈ L, led ∉ p.LEDs := by
  intro p hp led hled hmem
  have hex : shelf_exists db n = true := shelf_exists_of_find? hfind
  unfold leds_exists at h
  rw [hex] at h
  unfold get_positions_by_shelf_number at h
  rw [hex, hfind] at h
  simp only [not_true, if_false, Option.map_some'] at h
  by_cases hemp : s.Positions.isEmpty
  · rw [List.isEmpty_iff] at hemp
    rw [hemp] at hp
    exact absurd hp (List.not_mem_nil p)
  · rw [if_neg (by simp [hemp]), Bool.eq_false_iff] at h
    apply h
    rw [List.any_eq_true]
    refine ⟨p, hp, ?_⟩
    rw [List.any_eq_true]
    exact ⟨led, hled, by simpa using hmem⟩

/-- A failed leds_exists_exclusive check means no LED of the candidate
position occurs in a position with a different id of the first shelf with
its number. -/
theorem leds_exists_exclusive_false_spec {db : DB} {sp : ShelfPosition}
    {s : Shelf}
    (hfind : db.Shelves.find? (fun x => x.ShelfNumber == sp.ShelfNumber)
      = some s)
    (hpid : position_id_exists db sp.ShelfNumber sp.PositionId = true)
    (h : leds_exists_exclusive db sp = false) :
    ∀ p ∈ s.Positions, p.PositionId ≠ sp.PositionId →
      ∀ led ∈ sp.LEDs, led ∉ p.LEDs := by
  intro p hp hne led hled hmem
  have hex : shelf_exists db sp.ShelfNumber = true := shelf_exists_of_find? hfind
  unfold leds_exists_exclusive at h
  rw [hex, hpid] at h
  unfold get_positions_by_shelf_number at h
  rw [hex, hfind] at h
  simp only [not_true, if_false, Option.map_some'] at h
  by_cases hemp : s.Positions.isEmpty
  · rw [List.isEmpty_iff] at hemp
    rw [hemp] at hp
    exact absurd hp (List.not_mem_nil p)
  · rw [if_neg (by simp [hemp]), Bool.eq_false_iff] at h
    apply h
    rw [List.any_eq_true]
    refine ⟨p, hp, ?_⟩
    simp only [Bool.and_eq_true, bne_iff_ne, List.any_eq_true]
    exact ⟨hne, led, hled, by simpa using hmem⟩

/-- `updateFirstPosition` with an id-preserving update keeps any predicate
on the ids. -/
theorem all_updateFirstPosition_pid {pid : Int}
    {g : ShelfPosition → ShelfPosition}
    (hg : ∀ p, (g p).PositionId = p.PositionId) (f : Int → Bool) :
    ∀ ps : List ShelfPosition,
      (updateFirstPosition pid g ps).all (fun q => f q.PositionId)
        = ps.all (fun q => f q.PositionId)
  | [] => rfl
  | p :: t => by
    unfold updateFirstPosition
    split
    · simp [hg]
    · simp [all_updateFirstPosition_pid hg f t]

/-- `updateFirstPosition` with an id-preserving update keeps the uniqueness
of the ids. -/
theorem uniquePids_updateFirstPosition {pid : Int}
    {g : ShelfPosition → ShelfPosition}
    (hg : ∀ p, (g p).PositionId = p.PositionId) :
    ∀ ps : List ShelfPosition,
      uniquePids (updateFirstPosition pid g ps) = uniquePids ps
  | [] => rfl
  | p :: t => by
    unfold updateFirstPosition
    split
    · simp only [uniquePids, hg]
    · simp only [uniquePids, uniquePids_updateFirstPosition hg t]
      rw [all_updateFirstPosition_pid hg (fun x => x != p.PositionId) t]

/-- In a list all LED-disjoint from `p`, replacing one element by a position
holding LEDs that avoid `p` keeps the property. -/
theorem all_disjoint_updateFirstPosition {p : ShelfPosition} (pid n : Int)
    {L : List Int} (hp : ∀ l ∈ p.LEDs, l ∉ L) :
    ∀ t : List ShelfPosition, t.all (fun q => disjointPos p q) = true →
      (updateFirstPosition pid
        (fun q => { q with ShelfNumber := n, LEDs := L }) t).all
        (fun q => disjointPos p q) = true
  | [], _ => rfl
  | q :: r, hall => by
    simp only [List.all_cons, Bool.and_eq_true] at hall
    unfold updateFirstPosition
    split
    · simp only [List.all_cons, Bool.and_eq_true]
      refine ⟨?_, hall.2⟩
      rw [disjointPos_spec]
      exact fun l hl => hp l hl
    · simp only [List.all_cons, Bool.and_eq_true]
      exact ⟨hall.1, all_disjoint_updateFirstPosition pid n hp r hall.2⟩

/-- Core of the update case: replacing the LEDs of the position with the
given id keeps the positions pairwise disjoint, provided the ids are unique
and the new LED list avoids every position with another id. -/
theorem pairwiseDisjoint_updateFirstPosition {n pid : Int} {L : List Int} :
    ∀ ps : List ShelfPosition, pairwiseDisjoint ps = true →
      uniquePids ps = true →
      (∀ p ∈ ps, p.PositionId ≠ pid → ∀ led ∈ L, led ∉ p.LEDs) →
      pairwiseDisjoint (updateFirstPosition pid
        (fun q => { q with ShelfNumber := n, LEDs := L }) ps) = true
  | [], _, _, _ => rfl
  | p :: t, hd, hu, hex => by
    simp only [pairwiseDisjoint, Bool.and_eq_true, List.all_eq_true] at hd
    simp only [uniquePids, Bool.and_eq_true, List.all_eq_true] at hu
    unfold updateFirstPosition
    split
    · rename_i hmatch
      simp only [pairwiseDisjoint, Bool.and_eq_true, List.all_eq_true]
      refine ⟨?_, ?_⟩
      · intro q hq
        rw [disjointPos_spec]
        intro l hl hmem
        have hqne : q.PositionId ≠ p.PositionId := by
          have := hu.1 q hq
          simpa using this
        have hqpid : q.PositionId ≠ pid := by
          rw [beq_iff_eq] at hmatch
          rw [← hmatch]
          exact hqne
        exact hex q (List.mem_cons_of_mem _ hq) hqpid l hl hmem
      · have ht : pairwiseDisjoint t = true := by
          have := hd.2
          simpa [pairwiseDisjoint] using this
        exact ht
    · rename_i hmatch
      simp only [pairwiseDisjoint, Bool.and_eq_true, List.all_eq_true]
      have hpne : p.PositionId ≠ pid := by simpa using hmatch
      have hpL : ∀ l ∈ p.LEDs, l ∉ L := by
        intro l hl hlL
        exact hex p (List.mem_cons_self p t) hpne l hlL hl
      refine ⟨?_, ?_⟩
      · have := all_disjoint_updateFirstPosition pid n hpL t
          (by simp only [List.all_eq_true]; exact hd.1)
        simpa [List.all_eq_true] using this
      · exact pairwiseDisjoint_updateFirstPosition t hd.2 hu.2
          (fun q hq => hex q (List.mem_cons_of_mem _ hq))

/-- Dropping an element keeps an `all` predicate. -/
theorem all_removeFirstEq {f : ShelfPosition → Bool} {a : ShelfPosition} :
    ∀ l : List ShelfPosition, l.all f = true → (removeFirstEq a l).all f = true
  | [], _ => rfl
  | p :: t, h => by
    simp only [List.all_cons, Bool.and_eq_true] at h
    unfold removeFirstEq
    split
    · simp only [List.all_eq_true] at h ⊢
      exact h.2
    · simp only [List.all_cons, Bool.and_eq_true]
      exact ⟨h.1, all_removeFirstEq t h.2⟩

/-- Dropping an element keeps pairwise disjointness. -/
theorem pairwiseDisjoint_removeFirstEq {a : ShelfPosition} :
    ∀ ps : List ShelfPosition, pairwiseDisjoint ps = true →
      pairwiseDisjoint (removeFirstEq a ps) = true
  | [], _ => rfl
  | p :: t, h => by
    simp only [pairwiseDisjoint, Bool.and_eq_true] at h
    unfold removeFirstEq
    split
    · exact h.2
    · simp only [pairwiseDisjoint, Bool.and_eq_true]
      exact ⟨all_removeFirstEq t h.1, pairwiseDisjoint_removeFirstEq t h.2⟩

/-- Dropping an element keeps the uniqueness of the ids. -/
theorem uniquePids_removeFirstEq {a : ShelfPosition} :
    ∀ ps : List ShelfPosition, uniquePids ps = true →
      uniquePids (removeFirstEq a ps) = true
  | [], _ => rfl
  | p :: t, h => by
    simp only [uniquePids, Bool.and_eq_true] at h
    unfold removeFirstEq
    split
    · exact h.2
    · simp only [uniquePids, Bool.and_eq_true]
      exact ⟨all_removeFirstEq t h.1, uniquePids_removeFirstEq t h.2⟩

/-- add_position keeps the per-shelf invariants when the position carries
the number of the shelf it is added to (as at every call site). -/
theorem add_position_preserves_inv {db : DB} {n : Int} {sp : ShelfPosition}
    (hd : shelfLedsDisjoint db = true) (hu : dbUniquePids db = true)
    (hm : sp.ShelfNumber = n) :
    shelfLedsDisjoint (add_position db n sp).db = true ∧
      dbUniquePids (add_position db n sp).db = true := by
  unfold shelfLedsDisjoint at hd
  unfold dbUniquePids at hu
  unfold add_position
  split
  · exact ⟨hd, hu⟩
  rename_i h1
  split
  · exact ⟨hd, hu⟩
  rename_i h2
  split
  · exact ⟨hd, hu⟩
  split
  · exact ⟨hd, hu⟩
  split
  · exact ⟨hd, hu⟩
  rename_i h5
  have hex : shelf_exists db n = true := by simpa using h1
  have hpidf : position_id_exists db n sp.PositionId = false := by
    simpa using h2
  have hledf : leds_exists db sp.LEDs n = false := by
    rw [← hm]
    simpa using h5
  obtain ⟨s0, hfind⟩ := find?_of_shelf_exists hex
  have hmem : s0 ∈ db.Shelves := List.mem_of_find?_eq_some hfind
  have hnum : s0.ShelfNumber = n := by
    have := List.find?_some hfind
    simpa using this
  constructor
  · show (updateFirstShelf n _ db.Shelves).all _ = true
    apply all_updateFirstShelf hd
    intro s hs
    rw [hfind] at hs
    injection hs with hs
    subst hs
    apply pairwiseDisjoint_append
    · rw [List.all_eq_true] at hd
      exact hd s0 hmem
    · intro p hp
      apply disjointPos_of_not_mem
      intro led hled
      exact leds_exists_false_spec hfind hledf p hp led hled
  · show (updateFirstShelf n _ db.Shelves).all _ = true
    apply all_updateFirstShelf hu
    intro s hs
    rw [hfind] at hs
    injection hs with hs
    subst hs
    apply uniquePids_append
    · rw [List.all_eq_true] at hu
      exact hu s0 hmem
    · intro p hp
      exact fun he =>
        position_id_exists_false hpidf s0 hmem hnum p hp he.symm

/-- update_position keeps the per-shelf invariants when the position carries
the number of the shelf being updated (as at every call site). -/
theorem update_position_preserves_inv {db : DB} {n : Int} {sp : ShelfPosition}
    (hd : shelfLedsDisjoint db = true) (hu : dbUniquePids db = true)
    (hm : sp.ShelfNumber = n) :
    shelfLedsDisjoint (update_position db n sp).db = true ∧
      dbUniquePids (update_position db n sp).db = true := by
  unfold shelfLedsDisjoint at hd
  unfold dbUniquePids at hu
  unfold update_position
  split
  · exact ⟨hd, hu⟩
  rename_i h1
  split
  · exact ⟨hd, hu⟩
  rename_i h2
  split
  · exact ⟨hd, hu⟩
  split
  · exact ⟨hd, hu⟩
  rename_i h4
  have hex : shelf_exists db n = true := by simpa using h1
  have hpid : position_id_exists db n sp.PositionId = true := by
    simpa using h2
  have hexcf : leds_exists_exclusive db sp = false := by simpa using h4
  obtain ⟨s0, hfind⟩ := find?_of_shelf_exists hex
  have hmem : s0 ∈ db.Shelves := List.mem_of_find?_eq_some hfind
  have hfind2 : db.Shelves.find? (fun x => x.ShelfNumber == sp.ShelfNumber)
      = some s0 := by rw [hm]; exact hfind
  have hpid2 : position_id_exists db sp.ShelfNumber sp.PositionId = true := by
    rw [hm]; exact hpid
  have hexc := leds_exists_exclusive_false_spec hfind2 hpid2 hexcf
  constructor
  · show (updateFirstShelf n _ db.Shelves).all _ = true
    apply all_updateFirstShelf hd
    intro s hs
    rw [hfind] at hs
    injection hs with hs
    subst hs
    apply pairwiseDisjoint_updateFirstPosition
    · rw [List.all_eq_true] at hd
      exact hd s0 hmem
    · rw [List.all_eq_true] at hu
      exact hu s0 hmem
    · exact hexc
  · show (updateFirstShelf n _ db.Shelves).all _ = true
    apply all_updateFirstShelf hu
    intro s hs
    rw [hfind] at hs
    injection hs with hs
    subst hs
    show uniquePids (updateFirstPosition sp.PositionId
      (fun p => { p with ShelfNumber := n, LEDs := sp.LEDs }) s0.Positions)
      = true
    rw [uniquePids_updateFirstPosition
      (g := fun p => { p with ShelfNumber := n, LEDs := sp.LEDs })
      (fun p => rfl)]
    rw [List.all_eq_true] at hu
    exact hu s0 hmem

/-- delete_position keeps the per-shelf invariants. -/
theorem delete_position_preserves_inv {db : DB} {n : Int} {sp : ShelfPosition}
    (hd : shelfLedsDisjoint db = true) (hu : dbUniquePids db = true) :
    shelfLedsDisjoint (delete_position db n sp).db = true ∧
      dbUniquePids (delete_position db n sp).db = true := by
  unfold shelfLedsDisjoint at hd
  unfold dbUniquePids at hu
  unfold delete_position
  split
  · exact ⟨hd, hu⟩
  split
  · exact ⟨hd, hu⟩
  split
  · exact ⟨hd, hu⟩
  split
  · exact ⟨hd, hu⟩
  constructor
  · show (updateFirstShelf n _ db.Shelves).all _ = true
    apply all_updateFirstShelf hd
    intro s hs
    have hmem : s ∈ db.Shelves := List.mem_of_find?_eq_some hs
    rw [List.all_eq_true] at hd
    exact pairwiseDisjoint_removeFirstEq s.Positions (hd s hmem)
  · show (updateFirstShelf n _ db.Shelves).all _ = true
    apply all_updateFirstShelf hu
    intro s hs
    have hmem : s ∈ db.Shelves := List.mem_of_find?_eq_some hs
    rw [List.all_eq_true] at hu
    exact uniquePids_removeFirstEq s.Positions (hu s hmem)

theorem usedFlags_congr {a b : DB} (h : a.ESP32s = b.ESP32s) :
    usedFlags a = usedFlags b := by
  unfold usedFlags
  rw [h]

theorem usedFlags_updateFirst_isOnline (mac_address : String) (b : Bool) :
    ∀ l : List ESP32,
      (updateFirstESP32 mac_address (fun e => { e with isOnline := b }) l).map
          (fun e => (e.Mac_Address, e.isUsed))
        = l.map (fun e => (e.Mac_Address, e.isUsed))
  | [] => rfl
  | e :: es => by
    unfold updateFirstESP32
    split <;> simp [usedFlags_updateFirst_isOnline mac_address b es]

theorem add_position_esp32s (db : DB) (n : Int) (sp : ShelfPosition) :
    (add_position db n sp).db.ESP32s = db.ESP32s := by
  unfold add_position
  repeat' split
  all_goals rfl

theorem update_position_esp32s (db : DB) (n : Int) (sp : ShelfPosition) :
    (update_position db n sp).db.ESP32s = db.ESP32s := by
  unfold update_position
  repeat' split
  all_goals rfl

theorem delete_position_esp32s (db : DB) (n : Int) (sp : ShelfPosition) :
    (delete_position db n sp).db.ESP32s = db.ESP32s := by
  unfold delete_position
  repeat' split
  all_goals rfl

theorem config_put_esp32s (db : DB) (mac_address : String)
    (payload : List Nat) :
    (config_put db mac_address payload).db.ESP32s = db.ESP32s := by
  unfold config_put
  repeat' split
  all_goals first
  | rfl
  | apply add_position_esp32s

theorem api_create_position_esp32s (db : DB) (sp : ShelfPosition)
    (ackStatus : Nat) :
    (api_create_position db sp ackStatus).db.ESP32s = db.ESP32s := by
  unfold api_create_position
  repeat' split
  all_goals first
  | rfl
  | apply add_position_esp32s
  | (simp only []
     split
     all_goals apply add_position_esp32s)

theorem api_update_position_esp32s (db : DB) (sp : ShelfPosition)
    (ackStatus : Nat) :
    (api_update_position db sp ackStatus).db.ESP32s = db.ESP32s := by
  unfold api_update_position
  repeat' split
  all_goals first
  | rfl
  | apply update_position_esp32s
  | (simp only []
     split
     all_goals apply update_position_esp32s)

theorem api_delete_position_esp32s (db : DB) (n position_id : Int)
    (ackStatus : Nat) :
    (api_delete_position db n position_id ackStatus).db.ESP32s = db.ESP32s := by
  unfold api_delete_position
  repeat' split
  all_goals first
  | rfl
  | apply delete_position_esp32s
  | (simp only []
     split
     all_goals apply delete_position_esp32s)

/-- Claim C8, counterexample: `color_string_to_byte_array` does not return
None on every string other than a 7-character `#RRGGBB` string. The regex
`re.match` only anchors at the start, so the 8-character string `#abcdef0`
is accepted and decoded from its first seven characters. -/
theorem c8_color_counterexample :
    "#abcdef0".length ≠ 7 ∧
      color_string_to_byte_array "#abcdef0" = some [171, 205, 239] := by
  decide

/-- Claim C8 as amended: `color_string_to_byte_array` accepts precisely the
strings whose FIRST seven characters are `#` plus six case-insensitive hex
digits, whatever follows, decoding exactly those characters (`colorSpecParse`);
for every other string it returns None, and it never raises. -/
theorem c8_color_prefix_contract (s : String) :
    color_string_to_byte_array s = colorSpecParse s := by
  rcases s with ⟨data⟩
  rcases data with _ | ⟨c0, _ | ⟨c1, _ | ⟨c2, _ | ⟨c3, _ | ⟨c4, _ |
    ⟨c5, _ | ⟨c6, rest⟩⟩⟩⟩⟩⟩⟩ <;>
    simp [color_string_to_byte_array, colorSpecParse, List.take]

/-- Claim C10 (confirmed): for any `select_queue` other than "light_ack" and
"config_ack", `publish_with_ack` raises before publishing: the exception is
set, the published list is empty, no status is returned and the queues are
exactly the input queues (the function never touches the database at all). -/
theorem c10_invalid_queue_raises (timeout : Nat)
    (mac_address select_queue topic : String) (payload : List Nat)
    (st : MqttState) (cands : List Nat) (deliveries : List (Nat × ACK))
    (h1 : select_queue ≠ "light_ack") (h2 : select_queue ≠ "config_ack") :
    publish_with_ack timeout mac_address select_queue topic payload st cands
        deliveries =
      ⟨some "Didnt choose the right queue: either light_ack or config_ack",
       none, [], st⟩ := by
  simp [publish_with_ack, h1, h2]

/-- Witness for C10 at `select_queue = "wrong_queue"`. -/
theorem c10_invalid_queue_raises_witness :
    publish_with_ack 5 "AA:BB:CC:DD:EE:01" "wrong_queue" "pbl/t" [1]
        ⟨[], []⟩ [5] [] =
      ⟨some "Didnt choose the right queue: either light_ack or config_ack",
       none, [], ⟨[], []⟩⟩ :=
  c10_invalid_queue_raises 5 "AA:BB:CC:DD:EE:01" "wrong_queue" "pbl/t" [1]
    ⟨[], []⟩ [5] [] (by decide) (by decide)

/-- Claim C9 (confirmed): with a valid queue every `publish_with_ack` call
publishes exactly one message to the given topic, namely the chosen
correlation id followed by the payload unchanged, and the id is a single
byte value (candidates come from `random.randint(0, 255)`). -/
theorem c9_payload_framing (timeout : Nat) (mac_address select_queue topic :
    String) (payload : List Nat) (st : MqttState) (cands : List Nat)
    (deliveries : List (Nat × ACK)) (ack_id : Nat)
    (hq : select_queue = "light_ack" ∨ select_queue = "config_ack")
    (hc : ∀ c ∈ cands, c ≤ 255)
    (hsel : selectAckId mac_address
      (if select_queue = "light_ack" then st.light_ack_queue
       else st.config_ack_queue) cands = some ack_id) :
    (publish_with_ack timeout mac_address select_queue topic payload st cands
        deliveries).published = [(topic, ack_id :: payload)] ∧ ack_id ≤ 255 := by
  refine ⟨?_, hc _ (selectAckId_mem hsel)⟩
  rcases hq with h | h <;> subst h <;> simp at hsel <;>
    simp [publish_with_ack, hsel]

/-- Witness for C9: a concrete light exchange publishes the id byte 7 in
front of the payload. -/
theorem c9_payload_framing_witness :
    (publish_with_ack 1 "AA:BB:CC:DD:EE:01" "light_ack"
        "pbl/AA:BB:CC:DD:EE:01/light/set" [1, 2] ⟨[], []⟩ [7] []).published
      = [("pbl/AA:BB:CC:DD:EE:01/light/set", [7, 1, 2])] ∧ 7 ≤ 255 :=
  c9_payload_framing 1 "AA:BB:CC:DD:EE:01" "light_ack"
    "pbl/AA:BB:CC:DD:EE:01/light/set" [1, 2] ⟨[], []⟩ [7] [] 7
    (Or.inl rfl) (by decide) (by decide)

/-- Claim C3, counterexample: an ACK left over from a timed-out exchange is
NOT always a no-op. First call: the device acks id 5 only at tick 7, past
the timeout 5, so the exchange returns 504 and its ack is still in flight.
Second call on the same device: at selection time the stale ack has not
arrived yet, so the queue is empty and id 5 can be drawn again; the stale
ack then arrives at tick 2 of the new wait and is matched as the SUCCESS of
the second exchange, which returns 200 although its own ack never came. -/
theorem c3_stale_ack_counterexample :
    (publish_with_ack 5 "AA:BB:CC:DD:EE:01" "light_ack"
        "pbl/AA:BB:CC:DD:EE:01/light/set" [3] ⟨[], []⟩ [5]
        [(7, ⟨"AA:BB:CC:DD:EE:01", 5⟩)]).status = some 504 ∧
      (publish_with_ack 5 "AA:BB:CC:DD:EE:01" "light_ack"
        "pbl/AA:BB:CC:DD:EE:01/light/set" [3] ⟨[], []⟩ [5]
        [(2, ⟨"AA:BB:CC:DD:EE:01", 5⟩)]).status = some 200 := by
  decide

/-- Claim C3 as amended: with a valid queue and chosen id, the call returns
200 iff an ack equal to (MAC, id) is appended to the selected queue by tick
`timeout` of the wait, and 504 otherwise; the redraw loop only protects
against a stale ack that is ALREADY in the queue at selection time (the
chosen pair is never in the initial queue), not against one delivered during
the wait. -/
theorem c3_success_iff_matching_delivery (timeout : Nat)
    (mac_address select_queue topic : String) (payload : List Nat)
    (st : MqttState) (cands : List Nat) (deliveries : List (Nat × ACK))
    (ack_id : Nat)
    (hq : select_queue = "light_ack" ∨ select_queue = "config_ack")
    (hsel : selectAckId mac_address
      (if select_queue = "light_ack" then st.light_ack_queue
       else st.config_ack_queue) cands = some ack_id) :
    ((publish_with_ack timeout mac_address select_queue topic payload st cands
        deliveries).status = some 200 ↔
      ∃ d ∈ deliveries, d.2 = ACK.mk mac_address ack_id ∧ d.1 ≤ timeout) ∧
    ((publish_with_ack timeout mac_address select_queue topic payload st cands
        deliveries).status = some 504 ↔
      ¬ ∃ d ∈ deliveries, d.2 = ACK.mk mac_address ack_id ∧ d.1 ≤ timeout) := by
  rcases hq with h | h <;> subst h <;> simp at hsel <;>
    · by_cases hs : ∃ d ∈ deliveries, d.2 = ACK.mk mac_address ack_id ∧
          d.1 ≤ timeout
      · have hb : (((deliveries.filter
            (fun d => d.2 == ACK.mk mac_address ack_id)).map
              (fun d => d.1)).any (fun t => t ≤ timeout)) = true := by
          simp only [List.any_eq_true, List.mem_map, List.mem_filter,
            beq_iff_eq, decide_eq_true_eq]
          obtain ⟨d, hd, h2, h1⟩ := hs
          exact ⟨d.1, ⟨d, ⟨hd, h2⟩, rfl⟩, h1⟩
        simp [publish_with_ack, hsel, hb, hs]
      · have hb : (((deliveries.filter
            (fun d => d.2 == ACK.mk mac_address ack_id)).map
              (fun d => d.1)).any (fun t => t ≤ timeout)) = false := by
          rw [Bool.eq_false_iff]
          intro hany
          apply hs
          simp only [List.any_eq_true, List.mem_map, List.mem_filter,
            beq_iff_eq, decide_eq_true_eq] at hany
          obtain ⟨t, ⟨d, ⟨hd, h2⟩, hfst⟩, hle⟩ := hany
          exact ⟨d, hd, h2, hfst ▸ hle⟩
        simp [publish_with_ack, hsel, hb, hs]

/-- Witness for C3: a concrete exchange whose matching ack arrives at tick 2
of a 5-tick wait returns 200. -/
theorem c3_success_iff_matching_delivery_witness :
    (publish_with_ack 5 "AA:BB:CC:DD:EE:02" "config_ack" "pbl/t" [9]
        ⟨[], []⟩ [4] [(2, ⟨"AA:BB:CC:DD:EE:02", 4⟩)]).status = some 200 :=
  ((c3_success_iff_matching_delivery 5 "AA:BB:CC:DD:EE:02" "config_ack"
      "pbl/t" [9] ⟨[], []⟩ [4] [(2, ⟨"AA:BB:CC:DD:EE:02", 4⟩)] 4
      (Or.inr rfl) (by decide)).1).mpr
    ⟨(2, ⟨"AA:BB:CC:DD:EE:02", 4⟩), by decide, rfl, by decide⟩

/-- Claim C5, counterexample: two concurrently outstanding exchanges on the
same device and class CAN share a correlation id. The source redraws only
against the received-ack queue, which holds no record of outstanding
exchanges, so a second caller that starts while the first is still waiting
(and before any ack arrived) sees an empty queue and may draw the same id:
the state with two outstanding (MAC, 5) exchanges is reachable. -/
theorem c5_duplicate_outstanding_counterexample :
    CorrReachable ⟨[], [⟨"AA:BB:CC:DD:EE:01", 5⟩, ⟨"AA:BB:CC:DD:EE:01", 5⟩]⟩ ∧
      ¬ List.Nodup
        [ACK.mk "AA:BB:CC:DD:EE:01" 5, ACK.mk "AA:BB:CC:DD:EE:01" 5] := by
  constructor
  · have h1 : CorrStep ⟨[], []⟩ ⟨[], [⟨"AA:BB:CC:DD:EE:01", 5⟩]⟩ :=
      CorrStep.start ⟨[], []⟩ "AA:BB:CC:DD:EE:01" [5] 5 (by decide)
    have h2 : CorrStep ⟨[], [⟨"AA:BB:CC:DD:EE:01", 5⟩]⟩
        ⟨[], [⟨"AA:BB:CC:DD:EE:01", 5⟩, ⟨"AA:BB:CC:DD:EE:01", 5⟩]⟩ :=
      CorrStep.start ⟨[], [⟨"AA:BB:CC:DD:EE:01", 5⟩]⟩ "AA:BB:CC:DD:EE:01"
        [5] 5 (by decide)
    exact Relation.ReflTransGen.tail
      (Relation.ReflTransGen.tail Relation.ReflTransGen.refl h1) h2
  · decide

/-- Claim C5 as amended: the guarantee the redraw loop of
`publish_with_ack` actually provides: the chosen id is a byte (candidates
come from `random.randint(0, 255)`) and the pair (MAC, id) collides with no
ack present in the selected queue at the instant of sending; uniqueness
against other outstanding exchanges is not enforced. -/
theorem c5_id_unique_against_queue (mac_address : String) (queue : List ACK)
    (cands : List Nat) (ack_id : Nat) (hc : ∀ c ∈ cands, c ≤ 255)
    (h : selectAckId mac_address queue cands = some ack_id) :
    ack_id ≤ 255 ∧ ¬ queue.contains (ACK.mk mac_address ack_id) :=
  ⟨hc _ (selectAckId_mem h), selectAckId_fresh h⟩

/-- Witness for C5: with (MAC, 5) already queued the loop redraws and picks
7, which is fresh. -/
theorem c5_id_unique_against_queue_witness :
    7 ≤ 255 ∧
      ¬ (List.contains [ACK.mk "AA:BB:CC:DD:EE:01" 5]
          (ACK.mk "AA:BB:CC:DD:EE:01" 7)) :=
  c5_id_unique_against_queue "AA:BB:CC:DD:EE:01" [⟨"AA:BB:CC:DD:EE:01", 5⟩]
    [5, 7] 7 (by decide) (by decide)

/-- Claim C6, counterexample: a successful mutation does not write the
backup copy. A concrete successful add_shelf emits exactly one save event,
the primary file; `save_backup_data` is only ever called by the DataManager
constructor. -/
theorem c6_no_backup_counterexample :
    (add_shelf ⟨[], [⟨"AA:BB:CC:DD:EE:06", false, true⟩]⟩
        ⟨6, "AA:BB:CC:DD:EE:06", []⟩).ok = true ∧
      SaveEvent.backup ∉ (add_shelf ⟨[], [⟨"AA:BB:CC:DD:EE:06", false, true⟩]⟩
        ⟨6, "AA:BB:CC:DD:EE:06", []⟩).saves := by
  decide

/-- Claim C6 as amended: every successful mutating operation (add or delete
Shelf, add, update or delete ShelfPosition) persists the whole snapshot to
the primary JSON file, and to it alone, before returning success; a failed
operation persists nothing. The backup copy is written only when the
DataManager is constructed. -/
theorem c6_mutations_save_primary_only (db : DB) (shelf : Shelf) (n : Int)
    (sp : ShelfPosition) :
    ((add_shelf db shelf).saves =
      if (add_shelf db shelf).ok then [SaveEvent.primary] else []) ∧
    ((delete_shelf_by_shelf_number db n).saves =
      if (delete_shelf_by_shelf_number db n).ok then [SaveEvent.primary]
      else []) ∧
    ((add_position db n sp).saves =
      if (add_position db n sp).ok then [SaveEvent.primary] else []) ∧
    ((update_position db n sp).saves =
      if (update_position db n sp).ok then [SaveEvent.primary] else []) ∧
    ((delete_position db n sp).saves =
      if (delete_position db n sp).ok then [SaveEvent.primary] else []) := by
  refine ⟨?_, ?_, ?_, ?_, ?_⟩
  · unfold add_shelf
    repeat' split
    all_goals simp_all
  · unfold delete_shelf_by_shelf_number
    repeat' split
    all_goals simp_all
  · unfold add_position
    repeat' split
    all_goals simp_all
  · unfold update_position
    repeat' split
    all_goals simp_all
  · unfold delete_position
    repeat' split
    all_goals simp_all

/-- Claim C4 (confirmed): when the device exchange of a create-position,
update-position, delete-position or delete-shelf request times out, i.e.
`publish_with_ack` yields 504, the handler leaves the database exactly as it
was, persists nothing, and whenever the exchange was actually reached it
returns the unconfirmed outcome 504 to the caller (validation failures
before the exchange also leave the database untouched). -/
theorem c4_timeout_atomic (db : DB) (sp : ShelfPosition)
    (shelf_number position_id other_number : Int) :
    ((api_create_position db sp 504).db = db ∧
      (api_create_position db sp 504).saves = [] ∧
      ((api_create_position db sp 504).published = true →
        (api_create_position db sp 504).status = 504)) ∧
    ((api_update_position db sp 504).db = db ∧
      (api_update_position db sp 504).saves = [] ∧
      ((api_update_position db sp 504).published = true →
        (api_update_position db sp 504).status = 504)) ∧
    ((api_delete_position db shelf_number position_id 504).db = db ∧
      (api_delete_position db shelf_number position_id 504).saves = [] ∧
      ((api_delete_position db shelf_number position_id 504).published = true →
        (api_delete_position db shelf_number position_id 504).status = 504)) ∧
    ((api_delete_shelf db other_number 504).db = db ∧
      (api_delete_shelf db other_number 504).saves = [] ∧
      ((api_delete_shelf db other_number 504).published = true →
        (api_delete_shelf db other_number 504).status = 504)) := by
  refine ⟨?_, ?_, ?_, ?_⟩
  · unfold api_create_position
    repeat' split
    all_goals simp_all
  · unfold api_update_position
    repeat' split
    all_goals simp_all
  · unfold api_delete_position
    repeat' split
    all_goals simp_all
  · unfold api_delete_shelf
    repeat' split
    all_goals simp_all

/-- Witness for C4: a concrete timed-out createPosition on the shelf-1
database answers 504 and leaves the database unchanged. -/
theorem c4_timeout_atomic_witness :
    (api_create_position dbShelfOne ⟨1, 0, [1]⟩ 504).db = dbShelfOne ∧
      (api_create_position dbShelfOne ⟨1, 0, [1]⟩ 504).status = 504 :=
  ⟨(c4_timeout_atomic dbShelfOne ⟨1, 0, [1]⟩ 1 0 1).1.1,
   (c4_timeout_atomic dbShelfOne ⟨1, 0, [1]⟩ 1 0 1).1.2.2 (by decide)⟩

/-- Claim C1: the code violates the exclusivity invariant. `dbShelfOne` is
reachable (a register message for the device followed by a successful
add_shelf binds it to shelf 1, flag set). One GET /light/getESP32 call for
the same MAC with the fresh shelf number 2 is then answered 200 and leaves
TWO shelves referencing the device: the route clears the isUsed flag
directly (Api line 680) instead of enforcing its own documented precondition
that the MAC must not be assigned to another shelf, so the subsequent
add_shelf succeeds and shelf 1 keeps pointing at the device as well. -/
theorem c1_get_esp32_config_double_assigns :
    (add_shelf (receive_register ⟨[], []⟩ "AA:BB:CC:DD:EE:01").db
        ⟨1, "AA:BB:CC:DD:EE:01", []⟩).db = dbShelfOne ∧
      (shelvesReferencing dbShelfOne "AA:BB:CC:DD:EE:01").length = 1 ∧
      (api_get_esp32_config dbShelfOne "AA:BB:CC:DD:EE:01" 2 200).status
        = 200 ∧
      (shelvesReferencing
        (api_get_esp32_config dbShelfOne "AA:BB:CC:DD:EE:01" 2 200).db
        "AA:BB:CC:DD:EE:01").length = 2 := by
  decide

/-- Claim C2, counterexample: over arbitrary calls the claim fails. On a
database satisfying the invariant, add_position validates the LEDs against
`shelf_position.ShelfNumber` (here 999, no such shelf, so leds_exists is
False) while every other check and the insertion use the `shelf` argument
(number 1): the call succeeds and leaves two positions of shelf 1 sharing
LED 5. -/
theorem c2_mismatched_number_counterexample :
    shelfLedsDisjoint
        (⟨[⟨1, "AA:BB:CC:DD:EE:01", [⟨1, 0, [5]⟩]⟩],
          [⟨"AA:BB:CC:DD:EE:01", true, true⟩]⟩ : DB) = true ∧
      (add_position
        ⟨[⟨1, "AA:BB:CC:DD:EE:01", [⟨1, 0, [5]⟩]⟩],
          [⟨"AA:BB:CC:DD:EE:01", true, true⟩]⟩ 1 ⟨999, 1, [5]⟩).ok = true ∧
      shelfLedsDisjoint (add_position
        ⟨[⟨1, "AA:BB:CC:DD:EE:01", [⟨1, 0, [5]⟩]⟩],
          [⟨"AA:BB:CC:DD:EE:01", true, true⟩]⟩ 1 ⟨999, 1, [5]⟩).db
        = false := by
  decide

/-- Claim C2 as amended: when the shelf_position carries the number of the
shelf argument — as at every call site of the repository, which obtains the
shelf by that very number — add_position, update_position and
delete_position preserve the per-shelf LED disjointness (together with the
distinctness of the PositionIds, which the update validation relies on);
before and after any such sequence the LED sets of distinct positions of a
shelf are pairwise disjoint, update comparing against every position except
the one being replaced. -/
theorem c2_position_ops_preserve_disjointness (db : DB) (n : Int)
    (sp : ShelfPosition)
    (hd : shelfLedsDisjoint db = true) (hu : dbUniquePids db = true)
    (hm : sp.ShelfNumber = n) :
    (shelfLedsDisjoint (add_position db n sp).db = true ∧
      dbUniquePids (add_position db n sp).db = true) ∧
    (shelfLedsDisjoint (update_position db n sp).db = true ∧
      dbUniquePids (update_position db n sp).db = true) ∧
    (shelfLedsDisjoint (delete_position db n sp).db = true ∧
      dbUniquePids (delete_position db n sp).db = true) :=
  ⟨add_position_preserves_inv hd hu hm,
   update_position_preserves_inv hd hu hm,
   delete_position_preserves_inv hd hu⟩

/-- Witness for C2: adding position 2 with LED 7 next to position 0 with
LED 5 keeps shelf 1 disjoint. -/
theorem c2_position_ops_preserve_disjointness_witness :
    shelfLedsDisjoint (add_position
      ⟨[⟨1, "AA:BB:CC:DD:EE:01", [⟨1, 0, [5]⟩]⟩],
        [⟨"AA:BB:CC:DD:EE:01", true, true⟩]⟩ 1 ⟨1, 2, [7]⟩).db = true :=
  ((c2_position_ops_preserve_disjointness
    ⟨[⟨1, "AA:BB:CC:DD:EE:01", [⟨1, 0, [5]⟩]⟩],
      [⟨"AA:BB:CC:DD:EE:01", true, true⟩]⟩ 1 ⟨1, 2, [7]⟩
    (by decide) (by decide) rfl).1).1

/-- Claim C7, counterexample: get_esp32_config — an operation distinct from
add_shelf and delete_shelf_by_shelf_number — changes isUsed flags. First
pair of conjuncts: on a database with one unassigned registered device the
route flips that flag from false to true. Second pair: the route also sets
the flag DIRECTLY rather than only through add_shelf: on `dbShelfOne` the
device is in use, so a plain add_shelf for shelf 2 fails, yet the route
succeeds in creating a second shelf, which is only possible because its own
`esp32.isUsed = False` assignment (Api line 680) ran first. -/
theorem c7_flag_changed_by_get_esp32_config :
    usedFlags (⟨[], [⟨"AA:BB:CC:DD:EE:02", false, true⟩]⟩ : DB)
        = [("AA:BB:CC:DD:EE:02", false)] ∧
      usedFlags (api_get_esp32_config
        ⟨[], [⟨"AA:BB:CC:DD:EE:02", false, true⟩]⟩
        "AA:BB:CC:DD:EE:02" 7 200).db = [("AA:BB:CC:DD:EE:02", true)] ∧
      (add_shelf dbShelfOne ⟨2, "AA:BB:CC:DD:EE:01", []⟩).ok = false ∧
      (api_get_esp32_config dbShelfOne "AA:BB:CC:DD:EE:01" 2
        200).db.Shelves.length = 2 := by
  decide

/-- Claim C7 as amended: apart from add_shelf, delete_shelf_by_shelf_number
and the get_esp32_config route (which assigns the flag directly and re-binds
the device via add_shelf), no operation of the system changes any
registered ESP32 isUsed flag: the position operations and their route
handlers (under any exchange outcome), the dump and offline callbacks and
the liveness reset leave the flag list untouched, and registration only
appends a new entry with the flag clear. -/
theorem c7_only_assignment_ops_change_flags (db : DB) (n position_id : Int)
    (sp : ShelfPosition) (e : ESP32) (mac_address : String)
    (payload : List Nat) (ackStatus : Nat) :
    usedFlags (add_position db n sp).db = usedFlags db ∧
    usedFlags (update_position db n sp).db = usedFlags db ∧
    usedFlags (delete_position db n sp).db = usedFlags db ∧
    usedFlags (set_all_esp32s_offline db).db = usedFlags db ∧
    usedFlags (config_offline db mac_address).db = usedFlags db ∧
    usedFlags (config_put db mac_address payload).db = usedFlags db ∧
    (usedFlags (add_esp32 db e).db = usedFlags db ∨
      usedFlags (add_esp32 db e).db
        = usedFlags db ++ [(e.Mac_Address, e.isUsed)]) ∧
    (usedFlags (receive_register db mac_address).db = usedFlags db ∨
      usedFlags (receive_register db mac_address).db
        = usedFlags db ++ [(mac_address, false)]) ∧
    usedFlags (api_create_position db sp ackStatus).db = usedFlags db ∧
    usedFlags (api_update_position db sp ackStatus).db = usedFlags db ∧
    usedFlags (api_delete_position db n position_id ackStatus).db
      = usedFlags db := by
  refine ⟨usedFlags_congr (add_position_esp32s db n sp),
    usedFlags_congr (update_position_esp32s db n sp),
    usedFlags_congr (delete_position_esp32s db n sp),
    ?_, ?_, usedFlags_congr (config_put_esp32s db mac_address payload),
    ?_, ?_,
    usedFlags_congr (api_create_position_esp32s db sp ackStatus),
    usedFlags_congr (api_update_position_esp32s db sp ackStatus),
    usedFlags_congr (api_delete_position_esp32s db n position_id ackStatus)⟩
  · simp only [set_all_esp32s_offline, usedFlags, List.map_map]
    rfl
  · unfold config_offline
    split
    · exact usedFlags_updateFirst_isOnline mac_address false db.ESP32s
    · rfl
  · unfold add_esp32
    split
    · exact Or.inl rfl
    · right
      simp only [usedFlags, List.map_append]
      rfl
  · unfold receive_register
    split
    · exact Or.inl (usedFlags_updateFirst_isOnline mac_address true db.ESP32s)
    · rename_i hno
      unfold add_esp32
      rw [if_neg (by simpa using hno)]
      right
      simp only [usedFlags, List.map_append]
      rfl

/-- Witness for C7: a concrete turn of the dump callback on the shelf-1
database leaves the flag list unchanged. -/
theorem c7_only_assignment_ops_change_flags_witness :
    usedFlags (config_put dbShelfOne "AA:BB:CC:DD:EE:01" [0, 9]).db
      = usedFlags dbShelfOne :=
  (c7_only_assignment_ops_change_flags dbShelfOne 1 0 ⟨1, 0, [9]⟩
    ⟨"AA:BB:CC:DD:EE:01", false, true⟩ "AA:BB:CC:DD:EE:01" [0, 9]
    200).2.2.2.2.2.1

end HttpToMqtt
